import Mathlib

/-!
Verification development for the heygen-mcp-server repository
(source: src/index.ts). The file embeds, as executable Lean
definitions, the data model and operations of the server: the JSON
values the server serializes, the transport adapter makeRequest, the
query-string construction of the list tools, the per-tool handlers of
the CallToolRequestSchema dispatcher, the static tool registry, and
the startup credential guard. Theorems about these definitions settle
the specification claims.
-/

/-! ## JSON values and JSON.stringify

Model of the JSON data the server builds and serializes. `Json`,
`JsonList` and `JsonFields` are mutually inductive so that the
serializer is structurally recursive (object fields keep insertion
order, as JavaScript objects and JSON.stringify do). Numbers are
modelled as integers: the program only ever serializes integral
numbers (it never computes with floats).
-/

mutual

inductive Json where
  | null : Json
  | bool (b : Bool) : Json
  | num (n : Int) : Json
  | str (s : String) : Json
  | arr (elems : JsonList) : Json
  | obj (fields : JsonFields) : Json

inductive JsonList where
  | nil : JsonList
  | cons (hd : Json) (tl : JsonList) : JsonList

inductive JsonFields where
  | nil : JsonFields
  | cons (key : String) (val : Json) (tl : JsonFields) : JsonFields

end

/-- Lower-case hexadecimal digit, as JSON.stringify uses in \u escapes. -/
def hexDigitLower (n : Nat) : Char :=
  if n < 10 then Char.ofNat (48 + n) else Char.ofNat (87 + n)

/-- Upper-case hexadecimal digit, as percent-encoding uses. -/
def hexDigitUpper (n : Nat) : Char :=
  if n < 10 then Char.ofNat (48 + n) else Char.ofNat (55 + n)

/-- One character of a JSON string literal, escaped the way
JSON.stringify escapes it. -/
def escapeJsonChar (c : Char) : String :=
  if c = '"' then "\\\""
  else if c = '\\' then "\\\\"
  else if c = '\n' then "\\n"
  else if c = '\r' then "\\r"
  else if c = '\t' then "\\t"
  else if c.toNat = 8 then "\\b"
  else if c.toNat = 12 then "\\f"
  else if c.toNat < 32 then
    "\\u00" ++ String.singleton (hexDigitLower (c.toNat / 16))
      ++ String.singleton (hexDigitLower (c.toNat % 16))
  else String.singleton c

/-- A JSON string literal: double quotes around the escaped characters. -/
def quoteJsonString (s : String) : String :=
  "\"" ++ String.join (s.data.map escapeJsonChar) ++ "\""

mutual

/-- JSON.stringify(v) with no space argument: the compact serialization
used inside the makeRequest error message and for JSON request bodies. -/
def jsonStringify : Json → String
  | Json.null => "null"
  | Json.bool b => if b then "true" else "false"
  | Json.num n => toString n
  | Json.str s => quoteJsonString s
  | Json.arr es => "[" ++ stringifyElems es ++ "]"
  | Json.obj fl => "\x7b" ++ stringifyFields fl ++ "\x7d"

def stringifyElems : JsonList → String
  | JsonList.nil => ""
  | JsonList.cons e tl => jsonStringify e ++ stringifyElemsRest tl

def stringifyElemsRest : JsonList → String
  | JsonList.nil => ""
  | JsonList.cons e tl => "," ++ jsonStringify e ++ stringifyElemsRest tl

def stringifyFields : JsonFields → String
  | JsonFields.nil => ""
  | JsonFields.cons k v tl =>
      quoteJsonString k ++ ":" ++ jsonStringify v ++ stringifyFieldsRest tl

def stringifyFieldsRest : JsonFields → String
  | JsonFields.nil => ""
  | JsonFields.cons k v tl =>
      "," ++ quoteJsonString k ++ ":" ++ jsonStringify v ++ stringifyFieldsRest tl

end

/-- Two spaces per indentation level, the gap of JSON.stringify(v, null, 2). -/
def indentN (n : Nat) : String := String.join (List.replicate n "  ")

mutual

/-- JSON.stringify(v, null, 2): the pretty serialization the dispatcher
uses for the text of every successful tool response (index.ts, the
`JSON.stringify(result, null, 2)` in each case). The first argument is
the current depth. -/
def jsonStringifyPretty : Nat → Json → String
  | _, Json.null => "null"
  | _, Json.bool b => if b then "true" else "false"
  | _, Json.num n => toString n
  | _, Json.str s => quoteJsonString s
  | d, Json.arr es => prettyArr d es
  | d, Json.obj fl => prettyObj d fl

def prettyArr : Nat → JsonList → String
  | _, JsonList.nil => "[]"
  | d, JsonList.cons e tl =>
      "[\n" ++ indentN (d + 1) ++ jsonStringifyPretty (d + 1) e
        ++ prettyElemsRest (d + 1) tl ++ "\n" ++ indentN d ++ "]"

def prettyElemsRest : Nat → JsonList → String
  | _, JsonList.nil => ""
  | d, JsonList.cons e tl =>
      ",\n" ++ indentN d ++ jsonStringifyPretty d e ++ prettyElemsRest d tl

def prettyObj : Nat → JsonFields → String
  | _, JsonFields.nil => "\x7b\x7d"
  | d, JsonFields.cons k v tl =>
      "\x7b\n" ++ indentN (d + 1) ++ quoteJsonString k ++ ": "
        ++ jsonStringifyPretty (d + 1) v
        ++ prettyFieldsRest (d + 1) tl ++ "\n" ++ indentN d ++ "\x7d"

def prettyFieldsRest : Nat → JsonFields → String
  | _, JsonFields.nil => ""
  | d, JsonFields.cons k v tl =>
      ",\n" ++ indentN d ++ quoteJsonString k ++ ": "
        ++ jsonStringifyPretty d v ++ prettyFieldsRest d tl

end

/-! ## URL-encoding as URLSearchParams performs it

URLSearchParams serializes each supplied (key, value) pair in insertion
order as key=value joined by ampersands, percent-encoding the UTF-8
bytes of keys and values per application/x-www-form-urlencoded:
ASCII alphanumerics and * - . _ stay, a space becomes +, every other
byte becomes %XX with upper-case hexadecimal. -/

/-- UTF-8 encoding of one character as its list of byte values. -/
def utf8Bytes (c : Char) : List Nat :=
  let n := c.toNat
  if n < 128 then [n]
  else if n < 2048 then [192 + n / 64, 128 + n % 64]
  else if n < 65536 then [224 + n / 4096, 128 + (n / 64) % 64, 128 + n % 64]
  else [240 + n / 262144, 128 + (n / 4096) % 64, 128 + (n / 64) % 64, 128 + n % 64]

/-- UTF-8 bytes of a whole string. -/
def strBytes (s : String) : List Nat := (s.data.map utf8Bytes).flatten

/-- Whether a byte stays literal in application/x-www-form-urlencoded
output: ASCII alphanumerics and the marks * - . _ . -/
def formUnreserved (n : Nat) : Bool :=
  decide ((48 ≤ n ∧ n ≤ 57) ∨ (65 ≤ n ∧ n ≤ 90) ∨ (97 ≤ n ∧ n ≤ 122)
    ∨ n = 42 ∨ n = 45 ∨ n = 46 ∨ n = 95)

/-- One byte of form-urlencoded output. -/
def formEncodeByte (n : Nat) : String :=
  if formUnreserved n then String.singleton (Char.ofNat n)
  else if n = 32 then "+"
  else "%" ++ String.singleton (hexDigitUpper (n / 16))
    ++ String.singleton (hexDigitUpper (n % 16))

/-- Form-urlencoding of a string, over its UTF-8 bytes. -/
def formEncode (s : String) : String :=
  String.join ((strBytes s).map formEncodeByte)

/-- Join a list of strings with a separator (no trailing separator). -/
def joinWith (sep : String) : List String → String
  | [] => ""
  | [x] => x
  | x :: y :: rest => x ++ sep ++ joinWith sep (y :: rest)

/-- URLSearchParams.toString(): the appended pairs in insertion order,
each encoded as key=value, joined with ampersands. -/
def searchParamsToString (ps : List (String × String)) : String :=
  joinWith "&" (ps.map (fun p => formEncode p.1 ++ "=" ++ formEncode p.2))

/-! ## The transport adapter makeRequest (index.ts lines 25-67)

A JavaScript value passed as the optional `body` argument is a Buffer
(binary), a string, or a plain (non-Buffer) object; `JsValue` models
exactly these three runtime shapes, and the JavaScript truthiness and
typeof tests the adapter performs are modelled on it. The options
object handed to fetch carries the method, the headers and an optional
already-encoded body (raw bytes or a string). The HTTP environment is
a function from (url, options) to a response, modelling one fetch; a
response carries its status code and its parsed JSON data. -/

inductive JsValue where
  | vbuf (bytes : List Nat) : JsValue
  | vstr (s : String) : JsValue
  | vobj (j : Json) : JsValue

/-- JavaScript truthiness of a body value: Buffers and objects are
truthy, a string is truthy unless empty. -/
def jsTruthy : JsValue → Bool
  | JsValue.vbuf _ => true
  | JsValue.vstr s => !(s == "")
  | JsValue.vobj _ => true

/-- typeof body === "object": true for Buffers and plain objects,
false for strings. -/
def isJsObject : JsValue → Bool
  | JsValue.vbuf _ => true
  | JsValue.vstr _ => false
  | JsValue.vobj _ => true

/-- Buffer.isBuffer(body). -/
def isBuffer : JsValue → Bool
  | JsValue.vbuf _ => true
  | JsValue.vstr _ => false
  | JsValue.vobj _ => false

/-- The body slot of the options object handed to fetch: raw bytes
(a Buffer) or a string. -/
inductive BodyWire where
  | bytes (bs : List Nat) : BodyWire
  | str (s : String) : BodyWire

/-- The bytes fetch puts on the wire for a given options body: a missing
body and an empty string body both send zero bytes; a string body sends
its UTF-8 bytes; a Buffer body sends its bytes. -/
def wireBytes : Option BodyWire → List Nat
  | none => []
  | some (BodyWire.bytes bs) => bs
  | some (BodyWire.str s) => strBytes s

structure FetchOptions where
  method : String
  headers : List (String × String)
  body : Option BodyWire

structure HttpResponse where
  status : Nat
  data : Json

/-- response.ok of fetch: status in the range 200-299. -/
def statusOk (s : Nat) : Bool := decide (200 ≤ s) && decide (s < 300)

/-- The ambient state of the running server: the credential captured at
startup, the file system visible to readFileSync, and the HTTP fetch
environment. -/
structure Env where
  apiKey : String
  fs : String → Option (List Nat)
  http : String → FetchOptions → HttpResponse

/-- The Content-Type part of the headers object (index.ts lines 35-39):
an explicit truthy contentType wins verbatim; an absent or empty (falsy)
contentType falls through to the object test, which sets
application/json for a truthy non-Buffer object body. -/
def contentTypeHeader (body : Option JsValue) (contentType : Option String) :
    List (String × String) :=
  let jsonCase : List (String × String) :=
    match body with
    | some b =>
        if jsTruthy b && isJsObject b && !isBuffer b then
          [("Content-Type", "application/json")]
        else []
    | none => []
  match contentType with
  | some c => if c = "" then jsonCase else [("Content-Type", c)]
  | none => jsonCase

/-- The headers object of makeRequest: X-Api-Key always, then possibly
Content-Type (index.ts lines 31-39). -/
def buildHeaders (apiKey : String) (body : Option JsValue)
    (contentType : Option String) : List (String × String) :=
  ("X-Api-Key", apiKey) :: contentTypeHeader body contentType

/-- The body slot of the fetch options (index.ts lines 46-55): set only
for a truthy body; a Buffer passes through, a string passes through,
anything else is JSON.stringify-ed. -/
def buildBody (body : Option JsValue) : Option BodyWire :=
  match body with
  | some b =>
      if jsTruthy b then
        some (match b with
          | JsValue.vbuf bytes => BodyWire.bytes bytes
          | JsValue.vstr s => BodyWire.str s
          | JsValue.vobj j => BodyWire.str (jsonStringify j))
      else none
  | none => none

/-- The options object handed to fetch (index.ts lines 41-55). -/
def buildOptions (apiKey method : String) (body : Option JsValue)
    (contentType : Option String) : FetchOptions :=
  FetchOptions.mk method (buildHeaders apiKey body contentType) (buildBody body)

/-- makeRequest (index.ts lines 25-67): build the options, perform the
one fetch, and either return the parsed JSON data (response.ok) or
throw an Error whose message carries the status and the stringified
response data. The thrown Error is modelled as Except.error of the
message. -/
def makeRequest (env : Env) (url method : String) (body : Option JsValue)
    (contentType : Option String) : Except String Json :=
  let options := buildOptions env.apiKey method body contentType
  let response := env.http url options
  if statusOk response.status then Except.ok response.data
  else
    Except.error ("API request failed: " ++ toString response.status ++ " - "
      ++ jsonStringify response.data)

/-! ## The dispatcher (index.ts lines 287-504)

The argument bag of a tool invocation. The handlers destructure it with
a TypeScript type assertion only, so every field can be absent at
runtime; the bag is modelled as one structure holding every field any
tool reads, each optional. Field order: file_path, mime_type, asset_id,
folder_id, file_type, limit, token, parent_id, name_filter, is_trash,
name, project_type. The limit argument is a JavaScript number that the
program only ever turns into a string; the program never exercises
non-integral values, so it is modelled as an integer. -/
structure Args where
  file_path : Option String
  mime_type : Option String
  asset_id : Option String
  folder_id : Option String
  file_type : Option String
  limit : Option Int
  token : Option String
  parent_id : Option String
  name_filter : Option String
  is_trash : Option Bool
  name : Option String
  project_type : Option String

/-- The empty argument bag: no argument supplied. -/
def noArgs : Args :=
  Args.mk none none none none none none none none none none none none

/-- A bag supplying only folder_id. -/
def folderIdArgs (v : String) : Args :=
  Args.mk none none none (some v) none none none none none none none none

/-- A bag supplying only limit. -/
def limitArgs (n : Int) : Args :=
  Args.mk none none none none none (some n) none none none none none none

/-- A bag supplying only project_type. -/
def projectTypeArgs (v : String) : Args :=
  Args.mk none none none none none none none none none none none (some v)

/-- A bag supplying only file_path and mime_type, as an upload_asset
invocation does. -/
def uploadArgs (fp mt : String) : Args :=
  Args.mk (some fp) (some mt) none none none none none none none none none none

/-- One item of a response envelope: the program only ever produces
text items. -/
inductive Content where
  | text (s : String) : Content

/-- The response envelope of a tool invocation:
content plus the isError flag (absent in TypeScript meaning false). -/
structure ToolResponse where
  content : List Content
  isError : Bool

/-- The success envelope each case returns: the result pretty-printed
as JSON.stringify(result, null, 2) in a single text item, no error
flag. -/
def textResponse (j : Json) : ToolResponse :=
  ToolResponse.mk [Content.text (jsonStringifyPretty 0 j)] false

/-- readFileSync of Node (index.ts line 300), over the modelled file
system. A missing file throws ENOENT; the undefined path a missing
file_path argument produces throws a TypeError. Both are modelled as
Except.error of a message. -/
def readFileSync (env : Env) (path : Option String) : Except String (List Nat) :=
  match path with
  | none => Except.error "TypeError: the path argument must be of type string"
  | some p =>
      match env.fs p with
      | some bytes => Except.ok bytes
      | none => Except.error ("ENOENT: no such file or directory, open " ++ p)

/-- Upload endpoint base (index.ts line 21). -/
def UPLOAD_BASE_URL : String := "https://upload.heygen.com/v1"

/-- Control-plane base (index.ts line 22). -/
def API_BASE_URL : String := "https://api.heygen.com/v1"

/-- One URLSearchParams.append guarded by JavaScript truthiness of an
optional string, as the list cases guard folder_id, file_type, token,
parent_id and name_filter: appended only when supplied and non-empty. -/
def truthyStrParam (key : String) (v : Option String) : List (String × String) :=
  match v with
  | some s => if s = "" then [] else [(key, s)]
  | none => []

/-- One URLSearchParams.append guarded by `!== undefined` on a number,
as both list cases guard limit: appended whenever supplied, with
limit.toString() as the value. -/
def definedNumParam (key : String) (v : Option Int) : List (String × String) :=
  match v with
  | some n => [(key, toString n)]
  | none => []

/-- One URLSearchParams.append guarded by `!== undefined` on a boolean,
as list_folders guards is_trash, with is_trash.toString() as value. -/
def definedBoolParam (key : String) (v : Option Bool) : List (String × String) :=
  match v with
  | some b => [(key, if b then "true" else "false")]
  | none => []

/-- The query parameters the list_assets case appends, in program order
(index.ts lines 329-333). -/
def listAssetsParams (a : Args) : List (String × String) :=
  truthyStrParam "folder_id" a.folder_id
    ++ truthyStrParam "file_type" a.file_type
    ++ definedNumParam "limit" a.limit
    ++ truthyStrParam "token" a.token

/-- The list_assets URL (index.ts lines 335-338): the query string is
attached only when non-empty (a truthiness test on the string). -/
def listAssetsUrl (a : Args) : String :=
  let queryString := searchParamsToString (listAssetsParams a)
  if queryString = "" then API_BASE_URL ++ "/asset/list"
  else API_BASE_URL ++ "/asset/list?" ++ queryString

/-- The query parameters the list_folders case appends, in program
order (index.ts lines 378-384). -/
def listFoldersParams (a : Args) : List (String × String) :=
  definedNumParam "limit" a.limit
    ++ truthyStrParam "parent_id" a.parent_id
    ++ truthyStrParam "name_filter" a.name_filter
    ++ definedBoolParam "is_trash" a.is_trash
    ++ truthyStrParam "token" a.token

/-- The list_folders URL (index.ts lines 386-389). -/
def listFoldersUrl (a : Args) : String :=
  let queryString := searchParamsToString (listFoldersParams a)
  if queryString = "" then API_BASE_URL ++ "/folders"
  else API_BASE_URL ++ "/folders?" ++ queryString

/-- A template-literal interpolation of a possibly-undefined string:
JavaScript renders undefined as the text "undefined". -/
def interpolate : Option String → String
  | some s => s
  | none => "undefined"

/-- A field added to a JavaScript object literal under an `if (v)`
truthiness guard, then the rest of the fields. -/
def truthyField (key : String) (v : Option String) (rest : JsonFields) : JsonFields :=
  match v with
  | some s => if s = "" then rest else JsonFields.cons key (Json.str s) rest
  | none => rest

/-- The create_folder request body (index.ts lines 402-415):
project_type defaults to "mixed" when the argument is undefined; name
and parent_id join the object only when truthy; insertion order is
project_type, name, parent_id. -/
def createFolderBody (a : Args) : Json :=
  Json.obj (JsonFields.cons "project_type"
    (Json.str (Option.getD a.project_type "mixed"))
    (truthyField "name" a.name (truthyField "parent_id" a.parent_id JsonFields.nil)))

/-- The update_folder request body `{ name }` (index.ts line 437):
JSON.stringify drops a field holding undefined, so an absent name
serializes as an empty object. -/
def updateFolderBody (a : Args) : Json :=
  Json.obj (match a.name with
    | some s => JsonFields.cons "name" (Json.str s) JsonFields.nil
    | none => JsonFields.nil)

/-- The upload_asset case (index.ts lines 293-318): read the file at
file_path fully into memory, POST the Buffer to the upload endpoint
with the supplied mime_type as the explicit content-type, wrap the
result. -/
def handleUploadAsset (env : Env) (a : Args) : Except String ToolResponse :=
  (readFileSync env a.file_path).bind (fun fileBuffer =>
    Except.map textResponse
      (makeRequest env (UPLOAD_BASE_URL ++ "/asset") "POST"
        (some (JsValue.vbuf fileBuffer)) a.mime_type))

/-- The list_assets case (index.ts lines 320-349): GET the list URL
with no body, wrap the result. -/
def handleListAssets (env : Env) (a : Args) : Except String ToolResponse :=
  Except.map textResponse (makeRequest env (listAssetsUrl a) "GET" none none)

/-- The delete_asset case (index.ts lines 351-365): POST with no body
to /asset/{id}/delete. -/
def handleDeleteAsset (env : Env) (a : Args) : Except String ToolResponse :=
  Except.map textResponse
    (makeRequest env
      (API_BASE_URL ++ "/asset/" ++ interpolate a.asset_id ++ "/delete")
      "POST" none none)

/-- The list_folders case (index.ts lines 368-400): GET the folders URL
with no body, wrap the result. -/
def handleListFolders (env : Env) (a : Args) : Except String ToolResponse :=
  Except.map textResponse (makeRequest env (listFoldersUrl a) "GET" none none)

/-- The create_folder case (index.ts lines 402-430): POST the body
object to /folders/create with no explicit content-type. -/
def handleCreateFolder (env : Env) (a : Args) : Except String ToolResponse :=
  Except.map textResponse
    (makeRequest env (API_BASE_URL ++ "/folders/create") "POST"
      (some (JsValue.vobj (createFolderBody a))) none)

/-- The update_folder case (index.ts lines 432-448): POST the rename
body to /folders/{id} with explicit content-type application/json. -/
def handleUpdateFolder (env : Env) (a : Args) : Except String ToolResponse :=
  Except.map textResponse
    (makeRequest env (API_BASE_URL ++ "/folders/" ++ interpolate a.folder_id)
      "POST" (some (JsValue.vobj (updateFolderBody a)))
      (some "application/json"))

/-- The trash_folder case (index.ts lines 450-464): POST with no body
to /folders/{id}/trash. -/
def handleTrashFolder (env : Env) (a : Args) : Except String ToolResponse :=
  Except.map textResponse
    (makeRequest env
      (API_BASE_URL ++ "/folders/" ++ interpolate a.folder_id ++ "/trash")
      "POST" none none)

/-- The restore_folder case (index.ts lines 466-480): POST with no body
to /folders/{id}/restore. -/
def handleRestoreFolder (env : Env) (a : Args) : Except String ToolResponse :=
  Except.map textResponse
    (makeRequest env
      (API_BASE_URL ++ "/folders/" ++ interpolate a.folder_id ++ "/restore")
      "POST" none none)

/-- The switch of the CallToolRequestSchema handler (index.ts lines
291-492), as the partial name-to-handler map it denotes: a non-default
case for exactly the eight tool names, the default case for every
other name. -/
def toolCase (name : String) : Option (Env → Args → Except String ToolResponse) :=
  match name with
  | "upload_asset" => some handleUploadAsset
  | "list_assets" => some handleListAssets
  | "delete_asset" => some handleDeleteAsset
  | "list_folders" => some handleListFolders
  | "create_folder" => some handleCreateFolder
  | "update_folder" => some handleUpdateFolder
  | "trash_folder" => some handleTrashFolder
  | "restore_folder" => some handleRestoreFolder
  | _ => none

/-- The whole CallToolRequestSchema handler (index.ts lines 287-504):
dispatch on the tool name; the default case answers with an
error-flagged "Unknown tool" text; the catch block converts any error
thrown by a case into an error-flagged "Error: ..." text. Totality of
this function is the model of the dispatcher never letting an
exception escape. -/
def handleCallTool (env : Env) (name : String) (a : Args) : ToolResponse :=
  match toolCase name with
  | some h =>
      match h env a with
      | Except.ok r => r
      | Except.error e => ToolResponse.mk [Content.text ("Error: " ++ e)] true
  | none => ToolResponse.mk [Content.text ("Unknown tool: " ++ name)] true

/-! ## The tool registry (index.ts lines 70-266)

The static catalog returned verbatim by the ListToolsRequestSchema
handler. Only the parts of each descriptor the claims need are
modelled: the name, the required argument names, and (separately
below) the declarative enum and bound constraints of the schemas.
The long human-readable description strings are elided. -/

structure ToolDescriptor where
  name : String
  required : List String

/-- The tools array, in source order. -/
def tools : List ToolDescriptor :=
  [ToolDescriptor.mk "upload_asset" ["file_path", "mime_type"],
   ToolDescriptor.mk "list_assets" [],
   ToolDescriptor.mk "delete_asset" ["asset_id"],
   ToolDescriptor.mk "list_folders" [],
   ToolDescriptor.mk "create_folder" [],
   ToolDescriptor.mk "update_folder" ["folder_id", "name"],
   ToolDescriptor.mk "trash_folder" ["folder_id"],
   ToolDescriptor.mk "restore_folder" ["folder_id"]]

/-- The declared enum of mime_type in the upload_asset schema
(index.ts lines 87-93). -/
def mimeTypeEnum : List String :=
  ["image/png", "image/jpeg", "audio/mpeg", "video/mp4", "video/webm"]

/-- The declared enum of file_type in the list_assets schema
(index.ts line 115). -/
def fileTypeEnum : List String := ["audio", "video", "image"]

/-- The declared enum of project_type in the create_folder schema
(index.ts lines 199-206). -/
def projectTypeEnum : List String :=
  ["video_translate", "instant_avatar", "video", "asset", "brand_kit", "mixed"]

/-- The declared minimum of limit in both list schemas (index.ts
lines 121 and 159). -/
def limitMinimum : Int := 0

/-- The declared maximum of limit in both list schemas (index.ts
lines 122 and 160). -/
def limitMaximum : Int := 100

/-! ## Startup (index.ts lines 13-18) -/

/-- The message printed to the diagnostic stream when the credential is
missing. -/
def startupErrMsg : String :=
  "Error: HEYGEN_API_KEY environment variable is required"

/-- The credential guard: read HEYGEN_API_KEY from the process
environment; a falsy value (absent, or present but empty) prints the
message and exits with status 1, modelled as Except.error of (message,
exit status); otherwise the captured key is the startup result. -/
def startup (environ : String → Option String) : Except (String × Nat) String :=
  match environ "HEYGEN_API_KEY" with
  | some k => if k = "" then Except.error (startupErrMsg, 1) else Except.ok k
  | none => Except.error (startupErrMsg, 1)

/-! ## Concrete fixtures used by closed witness and counterexample
theorems: a file system holding one file, and HTTP environments with a
fixed canned response. -/

/-- An environment whose upstream always answers 404 with body
\x7b"error":"not found"\x7d, over an empty file system. -/
def env404 : Env :=
  Env.mk "test-key" (fun _ => none)
    (fun _ _ => HttpResponse.mk 404
      (Json.obj (JsonFields.cons "error" (Json.str "not found") JsonFields.nil)))

/-- An environment whose upstream always answers 200 with null, and
whose file system holds one two-byte file at path f.bin. -/
def envOk : Env :=
  Env.mk "test-key" (fun p => if p = "f.bin" then some [7, 8] else none)
    (fun _ _ => HttpResponse.mk 200 Json.null)

/-! ## Helper lemmas -/

/-- A successful wrapped transport result is a single-text envelope. -/
lemma map_textResponse_ok (e : Except String Json) (r : ToolResponse)
    (h : Except.map textResponse e = Except.ok r) :
    ∃ s, r.content = [Content.text s] := by
  cases e with
  | error err => simp [Except.map] at h
  | ok j =>
      simp [Except.map] at h
      exact ⟨jsonStringifyPretty 0 j, by subst h; rfl⟩

/-- A successful upload_asset result is a single-text envelope. -/
lemma uploadAsset_ok_shape (env : Env) (a : Args) (r : ToolResponse)
    (hr : handleUploadAsset env a = Except.ok r) :
    ∃ s, r.content = [Content.text s] := by
  unfold handleUploadAsset at hr
  cases hrf : readFileSync env a.file_path with
  | error e => rw [hrf] at hr; simp [Except.bind] at hr
  | ok buf =>
      rw [hrf] at hr
      simp only [Except.bind] at hr
      exact map_textResponse_ok _ _ hr

/-- Every handler the switch can select produces, on success, a
single-text envelope. -/
lemma handler_ok_shape (nm : String) (h : Env → Args → Except String ToolResponse)
    (hc : toolCase nm = some h) (env : Env) (a : Args) (r : ToolResponse)
    (hr : h env a = Except.ok r) : ∃ s, r.content = [Content.text s] := by
  unfold toolCase at hc
  split at hc <;> simp_all <;> subst hc <;>
    first
    | exact uploadAsset_ok_shape env a r hr
    | exact map_textResponse_ok _ _ hr

/-- Claim C1: every inbound tool invocation is answered by a total
response: the content is always a single text item; an unknown tool
name yields the error-flagged "Unknown tool" response; and whenever the
selected case throws (unknown upstream status, missing file, or any
other modelled error), the catch block converts it into the
error-flagged "Error: ..." response. Totality of handleCallTool is the
model of the dispatcher never propagating an exception or terminating
the process. -/
theorem c1_dispatcher_converts_failures (env : Env) (nm : String) (a : Args) :
    (∃ s, (handleCallTool env nm a).content = [Content.text s])
    ∧ (toolCase nm = none →
        handleCallTool env nm a =
          ToolResponse.mk [Content.text ("Unknown tool: " ++ nm)] true)
    ∧ (∀ h e, toolCase nm = some h → h env a = Except.error e →
        handleCallTool env nm a =
          ToolResponse.mk [Content.text ("Error: " ++ e)] true) := by
  refine ⟨?_, ?_, ?_⟩
  · cases hc : toolCase nm with
    | none => exact ⟨"Unknown tool: " ++ nm, by simp [handleCallTool, hc]⟩
    | some h =>
        cases hr : h env a with
        | error e => exact ⟨"Error: " ++ e, by simp [handleCallTool, hc, hr]⟩
        | ok r =>
            obtain ⟨s, hs⟩ := handler_ok_shape nm h hc env a r hr
            exact ⟨s, by simp [handleCallTool, hc, hr, hs]⟩
  · intro hc; simp [handleCallTool, hc]
  · intro h e hc hr; simp [handleCallTool, hc, hr]

/-- Claim C7: the tool-name set listed by the registry is exactly the
set handled by the dispatcher: the eight catalog names in source order, and
a name reaches a non-default switch case precisely when it is one of
them. -/
theorem c7_registry_matches_dispatch :
    tools.map ToolDescriptor.name =
      ["upload_asset", "list_assets", "delete_asset", "list_folders",
       "create_folder", "update_folder", "trash_folder", "restore_folder"]
    ∧ ∀ nm : String, (toolCase nm).isSome = true ↔
        nm ∈ ["upload_asset", "list_assets", "delete_asset", "list_folders",
              "create_folder", "update_folder", "trash_folder", "restore_folder"] := by
  refine ⟨rfl, ?_⟩
  intro nm
  constructor
  · intro h
    unfold toolCase at h
    split at h <;> simp_all
  · intro h
    simp only [List.mem_cons, List.not_mem_nil, or_false] at h
    rcases h with h | h | h | h | h | h | h | h <;> subst h <;> rfl

/-- Witness for C7 at a concrete name: upload_asset is dispatched. -/
theorem c7_registry_matches_dispatch_witness :
    (toolCase "upload_asset").isSome = true :=
  (c7_registry_matches_dispatch.2 "upload_asset").mpr (by simp)

/-- Counterexample to claim C2 as stated: an explicitly supplied but
empty contentType is not used verbatim. With body a plain object and
contentType the empty string, the falsy-contentType branch fires and
the header becomes application/json, not the supplied empty string. -/
theorem c2_contentType_verbatim_cex :
    List.lookup "Content-Type"
      (buildOptions "test-key" "POST"
        (some (JsValue.vobj (Json.obj JsonFields.nil))) (some "")).headers
      = some "application/json"
    ∧ ¬ (List.lookup "Content-Type"
      (buildOptions "test-key" "POST"
        (some (JsValue.vobj (Json.obj JsonFields.nil))) (some "")).headers
      = some "") := by
  exact ⟨rfl, by decide⟩

/-- Claim C2 as amended: a supplied non-empty contentType sets the
Content-Type header verbatim (an empty contentType is falsy and is
treated as absent); otherwise a non-Buffer object body gets
Content-Type application/json and its JSON serialization as body;
otherwise (string or Buffer body) no Content-Type header is set and
the bytes sent are exactly the body bytes (string bodies as their
UTF-8 bytes; an empty string body, being falsy, leaves the body slot
unset, which sends the same zero bytes on the wire); and every request
carries the X-Api-Key header holding the credential. -/
theorem c2_body_encoding_amended (k m : String) (body : Option JsValue)
    (ct : Option String) :
    (List.lookup "X-Api-Key" (buildOptions k m body ct).headers = some k)
    ∧ (∀ c, ct = some c → c ≠ "" →
        List.lookup "Content-Type" (buildOptions k m body ct).headers = some c)
    ∧ (∀ j, (ct = none ∨ ct = some "") → body = some (JsValue.vobj j) →
        List.lookup "Content-Type" (buildOptions k m body ct).headers
          = some "application/json"
        ∧ (buildOptions k m body ct).body
          = some (BodyWire.str (jsonStringify j)))
    ∧ ((ct = none ∨ ct = some "") → ∀ s, body = some (JsValue.vstr s) →
        List.lookup "Content-Type" (buildOptions k m body ct).headers = none
        ∧ wireBytes (buildOptions k m body ct).body = strBytes s)
    ∧ ((ct = none ∨ ct = some "") → ∀ bs, body = some (JsValue.vbuf bs) →
        List.lookup "Content-Type" (buildOptions k m body ct).headers = none
        ∧ wireBytes (buildOptions k m body ct).body = bs) := by
  refine ⟨rfl, ?_, ?_, ?_, ?_⟩
  · rintro c rfl hc
    simp [buildOptions, buildHeaders, contentTypeHeader, hc, List.lookup]
  · rintro j hct rfl
    rcases hct with rfl | rfl <;>
      simp [buildOptions, buildHeaders, contentTypeHeader, buildBody,
        jsTruthy, isJsObject, isBuffer, List.lookup]
  · rintro hct s rfl
    rcases hct with rfl | rfl <;> by_cases hs : s = "" <;>
      simp [buildOptions, buildHeaders, contentTypeHeader, buildBody,
        jsTruthy, isJsObject, isBuffer, wireBytes, hs, List.lookup] <;>
      rfl
  · rintro hct bs rfl
    rcases hct with rfl | rfl <;>
      simp [buildOptions, buildHeaders, contentTypeHeader, buildBody,
        jsTruthy, isJsObject, isBuffer, wireBytes, List.lookup]

/-- Claim C6: a non-ok HTTP status makes makeRequest fail with the
descriptive message carrying the status code and the serialized
response data, and an ok status returns the parsed data; concretely, a
404 with body \x7b"error":"not found"\x7d surfaces through the
dispatcher as an error-flagged text containing both the status code
and the serialized body. -/
theorem c6_error_surfacing (env : Env) (url method : String)
    (body : Option JsValue) (ct : Option String) :
    (statusOk (env.http url (buildOptions env.apiKey method body ct)).status = false →
      makeRequest env url method body ct =
        Except.error ("API request failed: "
          ++ toString (env.http url (buildOptions env.apiKey method body ct)).status
          ++ " - "
          ++ jsonStringify (env.http url (buildOptions env.apiKey method body ct)).data))
    ∧ (statusOk (env.http url (buildOptions env.apiKey method body ct)).status = true →
      makeRequest env url method body ct =
        Except.ok (env.http url (buildOptions env.apiKey method body ct)).data)
    ∧ handleCallTool env404 "list_assets" noArgs =
        ToolResponse.mk
          [Content.text "Error: API request failed: 404 - \x7b\"error\":\"not found\"\x7d"]
          true
    ∧ (∃ pre post,
        "Error: API request failed: 404 - \x7b\"error\":\"not found\"\x7d"
          = pre ++ "404" ++ post)
    ∧ (∃ pre post,
        "Error: API request failed: 404 - \x7b\"error\":\"not found\"\x7d"
          = pre ++ "\x7b\"error\":\"not found\"\x7d" ++ post) := by
  refine ⟨?_, ?_, ?_, ?_, ?_⟩
  · intro h; simp [makeRequest, h]
  · intro h; simp [makeRequest, h]
  · rfl
  · exact ⟨"Error: API request failed: ", " - \x7b\"error\":\"not found\"\x7d", by decide⟩
  · exact ⟨"Error: API request failed: 404 - ", "", by decide⟩

/-- Membership in a truthiness-guarded string parameter. -/
lemma mem_truthyStrParam (key k w : String) (v : Option String) :
    ((k, w) ∈ truthyStrParam key v) ↔ (k = key ∧ v = some w ∧ w ≠ "") := by
  cases v with
  | none => simp [truthyStrParam]
  | some s =>
      by_cases hs : s = "" <;>
        simp [truthyStrParam, hs, Prod.ext_iff] <;> aesop

/-- Membership in a definedness-guarded number parameter. -/
lemma mem_definedNumParam (key k w : String) (v : Option Int) :
    ((k, w) ∈ definedNumParam key v) ↔
      (k = key ∧ ∃ n, v = some n ∧ w = toString n) := by
  cases v <;> simp [definedNumParam, Prod.ext_iff]

/-- Membership in a definedness-guarded boolean parameter. -/
lemma mem_definedBoolParam (key k w : String) (v : Option Bool) :
    ((k, w) ∈ definedBoolParam key v) ↔
      (k = key ∧ ∃ b, v = some b ∧ w = (if b then "true" else "false")) := by
  cases v <;> simp [definedBoolParam, Prod.ext_iff]

/-- Counterexample to claim C3 as stated: a supplied empty-string
folder_id does not appear in the query string at all — the truthiness
guard drops it, so the list_assets URL carries no query string even
though the parameter was supplied. -/
theorem c3_supplied_empty_param_cex :
    ("folder_id", "") ∉ listAssetsParams (folderIdArgs "")
    ∧ listAssetsParams (folderIdArgs "") = []
    ∧ listAssetsUrl (folderIdArgs "") = "https://api.heygen.com/v1/asset/list" := by
  exact ⟨by decide, rfl, rfl⟩

/-- Claim C3 as amended: the query carries exactly the supplied
parameters that survive their guards — a string parameter (folder_id,
file_type, token, parent_id, name_filter) appears, URL-encoded, iff
supplied and non-empty (a supplied empty string is dropped like an
absent one); limit appears iff supplied, as its decimal rendering;
is_trash appears iff supplied, as true or false; when nothing survives
the URL carries no query string at all. -/
theorem c3_query_params_amended (a : Args) (k w : String) :
    ((k, w) ∈ listAssetsParams a ↔
      (k = "folder_id" ∧ a.folder_id = some w ∧ w ≠ "")
      ∨ (k = "file_type" ∧ a.file_type = some w ∧ w ≠ "")
      ∨ (k = "limit" ∧ ∃ n, a.limit = some n ∧ w = toString n)
      ∨ (k = "token" ∧ a.token = some w ∧ w ≠ ""))
    ∧ ((k, w) ∈ listFoldersParams a ↔
      (k = "limit" ∧ ∃ n, a.limit = some n ∧ w = toString n)
      ∨ (k = "parent_id" ∧ a.parent_id = some w ∧ w ≠ "")
      ∨ (k = "name_filter" ∧ a.name_filter = some w ∧ w ≠ "")
      ∨ (k = "is_trash" ∧ ∃ b, a.is_trash = some b ∧ w = (if b then "true" else "false"))
      ∨ (k = "token" ∧ a.token = some w ∧ w ≠ ""))
    ∧ (listAssetsParams a = [] → listAssetsUrl a = API_BASE_URL ++ "/asset/list")
    ∧ (listFoldersParams a = [] → listFoldersUrl a = API_BASE_URL ++ "/folders")
    ∧ listAssetsUrl noArgs = API_BASE_URL ++ "/asset/list"
    ∧ listFoldersUrl noArgs = API_BASE_URL ++ "/folders"
    ∧ listAssetsUrl (folderIdArgs "a b") = API_BASE_URL ++ "/asset/list?folder_id=a+b" := by
  refine ⟨?_, ?_, ?_, ?_, by decide, by decide, by decide⟩
  · simp only [listAssetsParams, List.mem_append, mem_truthyStrParam,
      mem_definedNumParam, or_assoc]
  · simp only [listFoldersParams, List.mem_append, mem_truthyStrParam,
      mem_definedNumParam, mem_definedBoolParam, or_assoc]
  · intro h
    simp only [listAssetsUrl, h, searchParamsToString, List.map_nil]
    rfl
  · intro h
    simp only [listFoldersUrl, h, searchParamsToString, List.map_nil]
    rfl

/-- Counterexample to claim C4: limit = 0 IS sent. The query string
built with limit = 0 is limit=0, which differs from the empty query
built with limit omitted, for both list tools. -/
theorem c4_limit_zero_sent_cex :
    listAssetsUrl (limitArgs 0) = "https://api.heygen.com/v1/asset/list?limit=0"
    ∧ listAssetsUrl noArgs = "https://api.heygen.com/v1/asset/list"
    ∧ listAssetsUrl (limitArgs 0) ≠ listAssetsUrl noArgs
    ∧ listFoldersUrl (limitArgs 0) = "https://api.heygen.com/v1/folders?limit=0"
    ∧ listFoldersUrl (limitArgs 0) ≠ listFoldersUrl noArgs := by
  exact ⟨by decide, by decide, by decide, by decide, by decide⟩

/-- Claim C4 as amended: the guard on limit is definedness, not
truthiness — a supplied limit always reaches the query string,
including the falsy value 0; only an omitted (undefined) limit is
absent. -/
theorem c4_limit_always_sent_amended (a : Args) (n : Int) (h : a.limit = some n) :
    ("limit", toString n) ∈ listAssetsParams a
    ∧ ("limit", toString n) ∈ listFoldersParams a := by
  constructor <;>
    simp [listAssetsParams, listFoldersParams, List.mem_append,
      mem_definedNumParam, mem_truthyStrParam, mem_definedBoolParam, h]

/-- Witness for C4 at the concrete input limit = 0. -/
theorem c4_limit_always_sent_amended_witness :
    ("limit", toString (0 : Int)) ∈ listAssetsParams (limitArgs 0)
    ∧ ("limit", toString (0 : Int)) ∈ listFoldersParams (limitArgs 0) :=
  c4_limit_always_sent_amended (limitArgs 0) 0 rfl

/-- Counterexample to claim C5 as stated: an upload invocation whose
supplied mime_type is the empty string produces a request with NO
Content-Type header (the falsy contentType falls through, and a Buffer
body sets no JSON header), so the header does not equal the supplied
mime_type. The body bytes are still exactly the file bytes. -/
theorem c5_upload_empty_mime_cex :
    handleUploadAsset envOk (uploadArgs "f.bin" "") =
      Except.map textResponse
        (makeRequest envOk (UPLOAD_BASE_URL ++ "/asset") "POST"
          (some (JsValue.vbuf [7, 8])) (some ""))
    ∧ List.lookup "Content-Type"
        (buildOptions "test-key" "POST" (some (JsValue.vbuf [7, 8])) (some "")).headers
      = none
    ∧ ¬ (List.lookup "Content-Type"
        (buildOptions "test-key" "POST" (some (JsValue.vbuf [7, 8])) (some "")).headers
      = some "") := by
  exact ⟨rfl, rfl, by decide⟩

/-- Claim C5 as amended: an upload_asset invocation whose file exists
reads it fully and issues the one POST to the upload endpoint whose
options carry exactly the file bytes as the body (byte length equal,
no JSON wrapper), with the Content-Type header equal to the supplied
mime_type whenever that mime_type is non-empty (an empty mime_type is
falsy and yields no Content-Type header). -/
theorem c5_upload_request_amended (env : Env) (fp mt : String) (bytes : List Nat)
    (h : env.fs fp = some bytes) :
    handleUploadAsset env (uploadArgs fp mt) =
      Except.map textResponse
        (makeRequest env (UPLOAD_BASE_URL ++ "/asset") "POST"
          (some (JsValue.vbuf bytes)) (some mt))
    ∧ (buildOptions env.apiKey "POST" (some (JsValue.vbuf bytes)) (some mt)).method
        = "POST"
    ∧ (buildOptions env.apiKey "POST" (some (JsValue.vbuf bytes)) (some mt)).body
        = some (BodyWire.bytes bytes)
    ∧ wireBytes (buildOptions env.apiKey "POST"
        (some (JsValue.vbuf bytes)) (some mt)).body = bytes
    ∧ (wireBytes (buildOptions env.apiKey "POST"
        (some (JsValue.vbuf bytes)) (some mt)).body).length = bytes.length
    ∧ (mt ≠ "" → List.lookup "Content-Type"
        (buildOptions env.apiKey "POST"
          (some (JsValue.vbuf bytes)) (some mt)).headers = some mt)
    ∧ (mt = "" → List.lookup "Content-Type"
        (buildOptions env.apiKey "POST"
          (some (JsValue.vbuf bytes)) (some mt)).headers = none) := by
  refine ⟨?_, rfl, rfl, rfl, rfl, ?_, ?_⟩
  · simp [handleUploadAsset, uploadArgs, readFileSync, h, Except.bind]
  · intro hmt
    simp [buildOptions, buildHeaders, contentTypeHeader, hmt, List.lookup]
  · intro hmt
    subst hmt
    rfl

/-- Witness for C5 at a concrete environment, file and mime type. -/
theorem c5_upload_request_amended_witness :
    handleUploadAsset envOk (uploadArgs "f.bin" "image/png") =
      Except.map textResponse
        (makeRequest envOk (UPLOAD_BASE_URL ++ "/asset") "POST"
          (some (JsValue.vbuf [7, 8])) (some "image/png"))
    ∧ List.lookup "Content-Type"
        (buildOptions "test-key" "POST"
          (some (JsValue.vbuf [7, 8])) (some "image/png")).headers
      = some "image/png" := by
  refine ⟨(c5_upload_request_amended envOk "f.bin" "image/png" [7, 8] rfl).1, ?_⟩
  exact (c5_upload_request_amended envOk "f.bin" "image/png" [7, 8] rfl).2.2.2.2.2.1
    (by decide)

/-- Counterexample to claim C8 as stated: a credential that is present
in the environment but empty does not let startup proceed — the falsy
guard treats it like an absent variable and the process exits with the
message and status 1. -/
theorem c8_startup_empty_key_cex :
    startup (fun _ => some "") = Except.error (startupErrMsg, 1)
    ∧ (startup (fun _ => some "")).isOk = false := by
  exact ⟨rfl, rfl⟩

/-- Claim C8 as amended: an absent or empty HEYGEN_API_KEY makes
startup exit with the descriptive message and the distinguished
non-zero status 1 before any tool handling; a present non-empty key
lets startup proceed, and every request built with the captured key
carries it unchanged in the X-Api-Key header. -/
theorem c8_startup_credential_amended (environ : String → Option String) :
    (environ "HEYGEN_API_KEY" = none →
      startup environ = Except.error (startupErrMsg, 1))
    ∧ (environ "HEYGEN_API_KEY" = some "" →
      startup environ = Except.error (startupErrMsg, 1))
    ∧ (∀ k, environ "HEYGEN_API_KEY" = some k → k ≠ "" →
      startup environ = Except.ok k)
    ∧ (∀ m c, startup environ = Except.error (m, c) →
      m = startupErrMsg ∧ c = 1 ∧ c ≠ 0)
    ∧ (∀ k method body ct, startup environ = Except.ok k →
      List.lookup "X-Api-Key" (buildOptions k method body ct).headers = some k) := by
  refine ⟨?_, ?_, ?_, ?_, ?_⟩
  · intro h; simp [startup, h]
  · intro h; simp [startup, h]
  · intro k h hk; simp [startup, h, hk]
  · intro m c h
    unfold startup at h
    cases he : environ "HEYGEN_API_KEY" with
    | none =>
        rw [he] at h
        simp only [Except.error.injEq, Prod.mk.injEq] at h
        obtain ⟨h1, h2⟩ := h
        subst h2
        exact ⟨h1.symm, rfl, by decide⟩
    | some k =>
        rw [he] at h
        by_cases hk : k = ""
        · subst hk
          simp only [if_true, eq_self_iff_true, ite_true, Except.error.injEq,
            Prod.mk.injEq] at h
          obtain ⟨h1, h2⟩ := h
          subst h2
          exact ⟨h1.symm, rfl, by decide⟩
        · simp [hk] at h
  · intro k method body ct _
    rfl

/-- Claim C9: create_folder with no arguments issues a POST to
/folders/create whose JSON body is exactly the object with the single
field project_type holding "mixed" — the default applies and name and
parent_id are omitted — serialized with Content-Type application/json. -/
theorem c9_create_folder_default_body (env : Env) :
    createFolderBody noArgs =
      Json.obj (JsonFields.cons "project_type" (Json.str "mixed") JsonFields.nil)
    ∧ handleCreateFolder env noArgs =
        Except.map textResponse
          (makeRequest env (API_BASE_URL ++ "/folders/create") "POST"
            (some (JsValue.vobj
              (Json.obj (JsonFields.cons "project_type" (Json.str "mixed")
                JsonFields.nil))))
            none)
    ∧ (buildOptions env.apiKey "POST"
        (some (JsValue.vobj (createFolderBody noArgs))) none).body
        = some (BodyWire.str "\x7b\"project_type\":\"mixed\"\x7d")
    ∧ List.lookup "Content-Type"
        (buildOptions env.apiKey "POST"
          (some (JsValue.vobj (createFolderBody noArgs))) none).headers
        = some "application/json" := by
  exact ⟨rfl, rfl, rfl, rfl⟩

/-- Claim C10: the schema constraints of the registry are advisory
only — no argument is validated against them. A project_type outside
the declared enum is placed verbatim in the create_folder body, and a
limit outside the declared 0..100 bounds appears verbatim in both list
query strings. -/
theorem c10_schema_constraints_advisory (pt : String) (n : Int)
    (h1 : pt ∉ projectTypeEnum) (h2 : n < limitMinimum ∨ limitMaximum < n) :
    createFolderBody (projectTypeArgs pt) =
      Json.obj (JsonFields.cons "project_type" (Json.str pt) JsonFields.nil)
    ∧ ("limit", toString n) ∈ listAssetsParams (limitArgs n)
    ∧ ("limit", toString n) ∈ listFoldersParams (limitArgs n)
    ∧ listAssetsUrl (limitArgs (-5)) = "https://api.heygen.com/v1/asset/list?limit=-5"
    ∧ listFoldersUrl (limitArgs 250) = "https://api.heygen.com/v1/folders?limit=250" := by
  refine ⟨rfl, ?_, ?_, by decide, by decide⟩
  · simp [listAssetsParams, limitArgs, truthyStrParam, definedNumParam]
  · simp [listFoldersParams, limitArgs, truthyStrParam, definedNumParam,
      definedBoolParam]

/-- Witness for C10 at concrete out-of-schema inputs: project_type
"bogus" and limit 250. -/
theorem c10_schema_constraints_advisory_witness :
    createFolderBody (projectTypeArgs "bogus") =
      Json.obj (JsonFields.cons "project_type" (Json.str "bogus") JsonFields.nil)
    ∧ ("limit", toString (250 : Int)) ∈ listAssetsParams (limitArgs 250)
    ∧ ("limit", toString (250 : Int)) ∈ listFoldersParams (limitArgs 250)
    ∧ listAssetsUrl (limitArgs (-5)) = "https://api.heygen.com/v1/asset/list?limit=-5"
    ∧ listFoldersUrl (limitArgs 250) = "https://api.heygen.com/v1/folders?limit=250" :=
  c10_schema_constraints_advisory "bogus" 250 (by decide) (by decide)
